import Mathlib

set_option linter.unusedVariables false

/-!
Verification development for the IndiePilot core: the skill-dependency
recommendation engine (`src/indiegraph.py`), the scenario scorer
(`src/sim.py`), and the Autonomy Index engine (`src/autonomy.py`,
`src/budget.py`, `src/db.py`), shallowly embedded in Lean 4.

Modelling conventions:
* Python sets of skill ids are modelled as `List String` used only through
  membership (`contains`), matching every use in the source.
* Python `float` arithmetic is modelled over `ℚ`.  Where a claim is
  sensitive to IEEE-754 binary64 rounding (the weight-sum tolerance
  check), literals and arithmetic are rounded with an explicit
  round-to-nearest-even binary64 model (`roundDouble`).
* Database reads (completed quest ids, jar balances, streak length, post
  counts, recent simulation scores, per-user settings) are the abstract
  storage collaborators of the spec; they are modelled as fields of a
  `UserData` record passed explicitly where the source issues the query.
-/

namespace IndiePilot

/-- A skill node of the catalog, embedding the node dictionaries built in
`IndieGraph._load_indiegraph`. -/
structure SkillNode where
  id : String
  title : String
  description : String
  difficulty : Nat
  category : String
  prerequisites : List String
deriving DecidableEq, Repr

/-- A directed edge of the skill graph; `src`/`dst` embed the
`'from'`/`'to'` keys of the edge dictionaries. -/
structure GraphEdge where
  src : String
  dst : String
deriving DecidableEq, Repr

/-- The skill dependency graph: the `nodes`/`edges` attributes of an
`IndieGraph` instance. -/
structure IndieGraph where
  nodes : List SkillNode
  edges : List GraphEdge
deriving Repr

/-- The fixed 15-node catalog of `IndieGraph._load_indiegraph` (`'nodes'`). -/
def indiegraph_nodes : List SkillNode :=
  [ ⟨"basic_laundry", "Basic Laundry", "Sort, wash, dry, and fold clothes",
      1, "household", []⟩,
    ⟨"meal_planning", "Meal Planning", "Plan meals and create shopping lists",
      2, "cooking", []⟩,
    ⟨"grocery_shopping", "Grocery Shopping", "Navigate stores and stick to budget",
      2, "shopping", ["meal_planning"]⟩,
    ⟨"budget_tracking", "Budget Tracking", "Track income and expenses",
      2, "finance", []⟩,
    ⟨"time_management", "Time Management", "Plan and prioritize daily activities",
      2, "planning", []⟩,
    ⟨"public_transport", "Public Transportation", "Navigate buses, trains, and schedules",
      2, "transportation", ["time_management"]⟩,
    ⟨"appointment_booking", "Appointment Booking", "Schedule and manage appointments",
      1, "communication", ["time_management"]⟩,
    ⟨"emergency_preparedness", "Emergency Preparedness", "Handle emergency situations safely",
      3, "safety", ["basic_laundry", "budget_tracking"]⟩,
    ⟨"cooking_basics", "Cooking Basics", "Prepare simple meals safely",
      2, "cooking", ["grocery_shopping"]⟩,
    ⟨"financial_planning", "Financial Planning", "Set financial goals and save money",
      3, "finance", ["budget_tracking", "time_management"]⟩,
    ⟨"conflict_resolution", "Conflict Resolution", "Handle disagreements constructively",
      3, "social", ["appointment_booking"]⟩,
    ⟨"job_interview", "Job Interview Skills", "Prepare for and conduct interviews",
      3, "career", ["conflict_resolution", "financial_planning"]⟩,
    ⟨"community_service", "Community Service", "Volunteer and give back to community",
      2, "social", ["time_management", "budget_tracking"]⟩,
    ⟨"public_speaking", "Public Speaking", "Present confidently to groups",
      3, "communication", ["conflict_resolution"]⟩,
    ⟨"first_aid", "Basic First Aid", "Provide basic medical assistance",
      2, "safety", ["emergency_preparedness"]⟩ ]

/-- The fixed edge list of `IndieGraph._load_indiegraph` (`'edges'`). -/
def indiegraph_edges : List GraphEdge :=
  [ ⟨"meal_planning", "grocery_shopping"⟩,
    ⟨"time_management", "public_transport"⟩,
    ⟨"time_management", "appointment_booking"⟩,
    ⟨"basic_laundry", "emergency_preparedness"⟩,
    ⟨"budget_tracking", "emergency_preparedness"⟩,
    ⟨"grocery_shopping", "cooking_basics"⟩,
    ⟨"budget_tracking", "financial_planning"⟩,
    ⟨"time_management", "financial_planning"⟩,
    ⟨"appointment_booking", "conflict_resolution"⟩,
    ⟨"conflict_resolution", "job_interview"⟩,
    ⟨"financial_planning", "job_interview"⟩,
    ⟨"time_management", "community_service"⟩,
    ⟨"budget_tracking", "community_service"⟩,
    ⟨"conflict_resolution", "public_speaking"⟩,
    ⟨"emergency_preparedness", "first_aid"⟩ ]

/-- The reference graph built by `IndieGraph.__init__`. -/
def refGraph : IndieGraph := ⟨indiegraph_nodes, indiegraph_edges⟩

/-- `IndieGraph.get_node_by_id`: first node of the catalog with the given
id, or absent. -/
def get_node_by_id (g : IndieGraph) (node_id : String) : Option SkillNode :=
  g.nodes.find? (fun n => n.id == node_id)

/-- `IndieGraph.get_prerequisites`: the node's prerequisite list, empty
when the node is absent. -/
def get_prerequisites (g : IndieGraph) (skill_id : String) : List String :=
  match get_node_by_id g skill_id with
  | none => []
  | some n => n.prerequisites

/-- `IndieGraph.get_dependents`: `adjacency_list.get(skill_id, [])`, where
the adjacency list has one key per catalog node id and collects, in edge
order, the `dst` of every edge whose `src` is that id. -/
def get_dependents (g : IndieGraph) (skill_id : String) : List String :=
  if g.nodes.any (fun n => n.id == skill_id) then
    (g.edges.filter (fun e => e.src == skill_id)).map (fun e => e.dst)
  else
    []

/-- `IndieGraph.is_available`: every prerequisite of the skill is a member
of the completed set. -/
def is_available (g : IndieGraph) (skill_id : String) (completed : List String) : Bool :=
  (get_prerequisites g skill_id).all (fun p => completed.contains p)

/-- `IndieGraph.get_available_skills`: catalog-order list of nodes not yet
completed whose prerequisites are all completed. -/
def get_available_skills (g : IndieGraph) (completed : List String) : List SkillNode :=
  g.nodes.filter (fun n => !(completed.contains n.id) && is_available g n.id completed)

/-- `IndieGraph.calculate_centrality`: out-degree minus in-degree. -/
def calculate_centrality (g : IndieGraph) (skill_id : String) : Int :=
  ((get_dependents g skill_id).length : Int) - ((get_prerequisites g skill_id).length : Int)

/-- `IndieGraph.calculate_coverage`: 0 when the skill is already completed;
otherwise the number of catalog nodes, other than the skill and not
completed, that are available once the skill is added to the completed set.
(The source collects the node ids into a set and returns its size; catalog
ids are pairwise distinct, so the filter length coincides.) -/
def calculate_coverage (g : IndieGraph) (skill_id : String) (completed : List String) : Nat :=
  if completed.contains skill_id then 0
  else
    (g.nodes.filter (fun n =>
      !(completed.contains n.id) && n.id != skill_id &&
        is_available g n.id (skill_id :: completed))).length

/-- A scored recommendation: the node dictionary of an available skill
extended with the `'centrality'`, `'coverage'` and `'combined_score'` keys
added in `IndieGraph.get_next_skills`. -/
structure ScoredSkill where
  node : SkillNode
  centrality : Int
  coverage : Nat
  combined_score : Int
deriving DecidableEq, Repr

/-- One entry of the list returned by `IndieGraph.get_next_skills`: either
a plain catalog node (the no-available-skills fallback) or a scored
recommendation. -/
inductive NextSkill where
  | plain (node : SkillNode)
  | scored (s : ScoredSkill)
deriving DecidableEq, Repr

/-- The skill id carried by a `get_next_skills` result entry. -/
def NextSkill.skillId : NextSkill → String
  | .plain n => n.id
  | .scored s => s.node.id

/-- Insert into a list sorted descending by `combined_score`, after every
element with a strictly greater or equal score already present. -/
def insert_by_score (x : ScoredSkill) : List ScoredSkill → List ScoredSkill
  | [] => [x]
  | y :: ys =>
    if x.combined_score < y.combined_score then y :: insert_by_score x ys
    else x :: y :: ys

/-- Stable descending sort by `combined_score`, embedding the Python
stable `scored_skills.sort(key=..., reverse=True)`: ties keep their
original relative order. -/
def sort_by_score_desc : List ScoredSkill → List ScoredSkill
  | [] => []
  | x :: xs => insert_by_score x (sort_by_score_desc xs)

/-- `IndieGraph.get_next_skills`, with the completed-skill set (read from
the `quest_progress` table in the source) passed explicitly.  Falls back
to up to `limit` no-prerequisite nodes when nothing is available;
otherwise scores every available skill by centrality + coverage and
returns the top `limit` in stable descending score order. -/
def get_next_skills (g : IndieGraph) (completed : List String) (limit : Nat) :
    List NextSkill :=
  let available := get_available_skills g completed
  if available.isEmpty then
    ((g.nodes.filter (fun n => n.prerequisites.isEmpty)).take limit).map .plain
  else
    let scored := available.map (fun skill =>
      let centrality := calculate_centrality g skill.id
      let coverage := calculate_coverage g skill.id completed
      ScoredSkill.mk skill centrality coverage (centrality + (coverage : Int)))
    ((sort_by_score_desc scored).take limit).map .scored

/-- One iteration state entry of the `get_skill_path` search queue: a
skill id together with the accumulated path of node lookups (the source
appends `get_node_by_id(current)`, which is an optional node). -/
abbrev PathEntry := String × List (Option SkillNode)

/-- The while-loop of `IndieGraph.get_skill_path`, with explicit fuel.
Each iteration pops the queue head; a visited id is skipped, an available
id returns the accumulated path plus its node lookup, and otherwise the
unmet, unvisited prerequisites are appended to the queue.  `none` means
the fuel ran out, which `get_skill_path_fuel_sufficient` rules out for
the fuel used by `get_skill_path`. -/
def get_skill_path_loop (g : IndieGraph) (completed : List String) :
    Nat → List PathEntry → List String → Option (List (Option SkillNode))
  | 0, _, _ => none
  | _ + 1, [], _ => some []
  | fuel + 1, (current, path) :: queue, visited =>
    if visited.contains current then
      get_skill_path_loop g completed fuel queue visited
    else
      let visited' := current :: visited
      if is_available g current completed then
        some (path ++ [get_node_by_id g current])
      else
        let pushes :=
          ((get_prerequisites g current).filter (fun p =>
            !(completed.contains p) && !(visited'.contains p))).map
            (fun p => (p, path ++ [get_node_by_id g current]))
        get_skill_path_loop g completed fuel (queue ++ pushes) visited'

/-- The set of ids that can ever enter the search queue: the target plus
every id mentioned in some catalog node's prerequisite list. -/
def path_id_universe (g : IndieGraph) (target : String) : List String :=
  target :: g.nodes.flatMap (fun n => n.prerequisites)

/-- Upper bound on the number of ids pushed in one loop iteration: the
longest prerequisite list of the catalog. -/
def max_prereq_len (g : IndieGraph) : Nat :=
  (g.nodes.map (fun n => n.prerequisites.length)).foldr Nat.max 0

/-- Fuel that `get_skill_path_fuel_sufficient` proves sufficient for the
search loop to finish on any catalog. -/
def path_fuel (g : IndieGraph) (target : String) : Nat :=
  2 + (path_id_universe g target).length * (max_prereq_len g + 1)

/-- `IndieGraph.get_skill_path`: empty when the target is already
completed, otherwise the breadth-first search over unmet prerequisites. -/
def get_skill_path (g : IndieGraph) (target : String) (completed : List String) :
    List (Option SkillNode) :=
  if completed.contains target then []
  else
    (get_skill_path_loop g completed (path_fuel g target) [(target, [])] []).getD []

/-! ### IEEE-754 binary64 model

Python `float` is IEEE-754 binary64.  The weight-tolerance claim hinges on
its rounding, so literals and the additions/subtraction of
`AutonomyIndex.update_weights` are modelled exactly: a rational is rounded
to the nearest representable value (53-bit significand, ties to even).
The exponent search covers binary exponents `-12 ≤ e ≤ 12`, which spans
every value these computations produce; subnormals and overflow do not
arise here and are not modelled. -/

/-- Scan for the binary exponent: the largest `e` in the scanned range
with `2 ^ e ≤ q`. -/
def floatExpAux (q : ℚ) : Nat → Int → Int
  | 0, e => e
  | n + 1, e => if (2 : ℚ) ^ (e + 1) ≤ q then floatExpAux q n (e + 1) else e

/-- Binary exponent of a positive rational (valid for `2 ^ (-12) ≤ q < 2 ^ 13`). -/
def floatExp (q : ℚ) : Int := floatExpAux q 25 (-12)

/-- Round a rational to the nearest integer, ties to even (the rounding of
IEEE-754 significands and of Python's built-in `round`). -/
def roundHalfEvenInt (q : ℚ) : Int :=
  let f := ⌊q⌋
  let r := q - (f : ℚ)
  if r < 1 / 2 then f
  else if 1 / 2 < r then f + 1
  else if f % 2 = 0 then f else f + 1

/-- Round a positive rational to the nearest binary64 value. -/
def roundDoublePos (q : ℚ) : ℚ :=
  let e := floatExp q
  let m := roundHalfEvenInt (q * 2 ^ ((52 : Int) - e))
  (m : ℚ) * 2 ^ (e - 52)

/-- Round a rational to the nearest binary64 value. -/
def roundDouble (q : ℚ) : ℚ :=
  if q = 0 then 0
  else if q < 0 then -(roundDoublePos (-q))
  else roundDoublePos q

/-- Binary64 addition (round the exact sum). -/
def fadd (a b : ℚ) : ℚ := roundDouble (a + b)

/-- Binary64 subtraction (round the exact difference). -/
def fsub (a b : ℚ) : ℚ := roundDouble (a - b)

/-! ### Storage model

The per-user rows the engines read from SQLite, abstracted as records. -/

/-- A `user_settings` row (`src/db.py`). -/
structure UserSettings where
  spend_ratio : ℚ
  save_ratio : ℚ
  share_ratio : ℚ
  skills_weight : ℚ
  budgeting_weight : ℚ
  community_weight : ℚ
  judgment_weight : ℚ
deriving DecidableEq, Repr

/-- The default settings row inserted by `get_user_settings` when the user
has none: ratios 60/30/10 and weights 0.30/0.30/0.15/0.25 (binary64
literals). -/
def default_user_settings : UserSettings :=
  ⟨60, 30, 10, roundDouble (3/10), roundDouble (3/10),
    roundDouble (15/100), roundDouble (25/100)⟩

/-- Everything the Autonomy Index engine reads about one user from
storage: completed-quest count, jar balances of the `budget_log` ledger,
the date-based logging streak (an out-of-scope storage accessor per the
spec), board post/claim counts, simulation scores most recent first, and
the optional `user_settings` row. -/
structure UserData where
  completed_quest_count : Nat
  spend_balance : ℚ
  save_balance : ℚ
  share_balance : ℚ
  streak : Nat
  posts_created : Nat
  posts_claimed : Nat
  sim_scores : List ℚ
  settings : Option UserSettings
deriving DecidableEq, Repr

/-- `db.get_user_settings`: the stored row, or the default row (also
inserted) when none exists. -/
def get_user_settings (u : UserData) : UserSettings :=
  match u.settings with
  | none => default_user_settings
  | some s => s

/-- `BudgetManager.get_budget_overview`: per-jar balances and their sum. -/
structure BudgetOverview where
  spend : ℚ
  save : ℚ
  share : ℚ
  total : ℚ
deriving DecidableEq, Repr

/-- `BudgetManager.get_budget_overview` on the modelled jar balances. -/
def get_budget_overview (u : UserData) : BudgetOverview :=
  ⟨u.spend_balance, u.save_balance, u.share_balance,
    u.spend_balance + u.save_balance + u.share_balance⟩

/-- `BudgetManager.get_financial_health_score`: 0 on a zero total balance,
otherwise the capped sum of a savings-ratio score, a streak bonus of up to
20, and a spending-control score. -/
def get_financial_health_score (u : UserData) : ℚ :=
  let overview := get_budget_overview u
  let total := overview.total
  if total = 0 then 0
  else
    let savings_ratio := overview.save / total
    let savings_score := min 100 (savings_ratio * 200)
    let streak_bonus := min 20 ((u.streak : ℚ) * 2)
    let spend_ratio := if total > 0 then overview.spend / total else 1
    let spending_score := max 0 (30 - spend_ratio * 30)
    min 100 (savings_score + streak_bonus + spending_score)

/-- Python `round(x, 1)`: nearest multiple of 1/10, ties to even. -/
def round1 (q : ℚ) : ℚ := (roundHalfEvenInt (q * 10) : ℚ) / 10

/-- The four Autonomy Index weights. -/
structure AutonomyWeights where
  skills : ℚ
  budgeting : ℚ
  community : ℚ
  judgment : ℚ
deriving DecidableEq, Repr

/-- The mutable state of an `AutonomyIndex` engine instance: its
`default_weights` attribute (the only attribute `update_weights`
mutates). -/
structure EngineState where
  default_weights : AutonomyWeights
deriving DecidableEq, Repr

/-- The engine state set up by `AutonomyIndex.__init__`: default weights
0.30/0.30/0.15/0.25 (binary64 literals). -/
def engine_init : EngineState :=
  ⟨⟨roundDouble (3/10), roundDouble (3/10), roundDouble (15/100),
     roundDouble (25/100)⟩⟩

/-- `AutonomyIndex._calculate_skills_score`: `min(100, completed * 10)`. -/
def calculate_skills_score (u : UserData) : ℚ :=
  min 100 ((u.completed_quest_count : ℚ) * 10)

/-- `AutonomyIndex._calculate_budgeting_score`: financial health score,
plus a streak bonus of up to 20, minus an overspending penalty when the
spend jar exceeds 70% of a positive total, clamped to [0, 100]. -/
def calculate_budgeting_score (u : UserData) : ℚ :=
  let base_score := get_financial_health_score u
  let streak_bonus := min 20 ((u.streak : ℚ) * 2)
  let overview := get_budget_overview u
  let total := overview.total
  let overspend_penalty :=
    if total > 0 then max 0 ((overview.spend / total - roundDouble (7/10)) * 100)
    else 0
  let final_score := base_score + streak_bonus - overspend_penalty
  max 0 (min 100 final_score)

/-- `AutonomyIndex._calculate_community_score`: capped points for posts
created and claimed, capped at 100. -/
def calculate_community_score (u : UserData) : ℚ :=
  let posts_score := min 50 ((u.posts_created : ℚ) * 5)
  let claims_score := min 50 ((u.posts_claimed : ℚ) * 10)
  min 100 (posts_score + claims_score)

/-- `AutonomyIndex._calculate_judgment_score`: average of the last (up to)
5 simulation scores, or the 50.0 default when there are none. -/
def calculate_judgment_score (u : UserData) : ℚ :=
  let recent := u.sim_scores.take 5
  if recent.isEmpty then 50
  else (recent.foldr (· + ·) 0) / (recent.length : ℚ)

/-- `AutonomyIndex.compute_autonomy_index`: the per-user-weighted sum of
the four sub-scores, rounded to one decimal.  The weights come from the
stored per-user settings (`get_user_settings`), not from the engine
state. -/
def compute_autonomy_index (e : EngineState) (u : UserData) : ℚ :=
  let settings := get_user_settings u
  round1 (calculate_skills_score u * settings.skills_weight +
    calculate_budgeting_score u * settings.budgeting_weight +
    calculate_community_score u * settings.community_weight +
    calculate_judgment_score u * settings.judgment_weight)

/-- `AutonomyIndex.update_weights`: rejects (returning the untouched
state) unless the four weights sum to 1.0 within 0.01, in binary64
arithmetic; on success replaces the engine's `default_weights`. -/
def update_weights (e : EngineState) (skills_weight budgeting_weight
    community_weight judgment_weight : ℚ) : Bool × EngineState :=
  let total_weight :=
    fadd (fadd (fadd skills_weight budgeting_weight) community_weight)
      judgment_weight
  if roundDouble (1/100) < |fsub total_weight 1| then (false, e)
  else
    (true, ⟨⟨skills_weight, budgeting_weight, community_weight,
      judgment_weight⟩⟩)

/-- Run a sequence of `update_weights` calls against an engine state,
keeping only the final state. -/
def run_weight_updates (e : EngineState) : List (ℚ × ℚ × ℚ × ℚ) → EngineState
  | [] => e
  | (s, b, c, j) :: rest =>
    run_weight_updates (update_weights e s b c j).2 rest

/-! ### Scenario scorer (`src/sim.py`) -/

/-- The per-category scores carried by one scenario choice: the
`'scores'` dictionary over the four fixed categories. -/
structure ChoiceScores where
  frugality : Int
  safety : Int
  time : Int
  initiative : Int
deriving DecidableEq, Repr

/-- A selectable choice of a scenario step. -/
structure SimChoice where
  text : String
  scores : ChoiceScores
deriving DecidableEq, Repr

/-- One step of a scenario: a question and its choices. -/
structure SimStep where
  question : String
  choices : List SimChoice
deriving DecidableEq, Repr

/-- Pointwise sum of per-category score accumulators. -/
def addScores (a b : ChoiceScores) : ChoiceScores :=
  ⟨a.frugality + b.frugality, a.safety + b.safety, a.time + b.time,
    a.initiative + b.initiative⟩

/-- `SimManager.calculate_score`: `(0, {})` when the choices are empty or
their number differs from the number of steps; otherwise per-category
sums averaged over the steps (Python `round`, ties to even) and an
overall score weighted 0.25/0.30/0.20/0.25 (binary64 literals).  The
breakdown lists the four categories in the dictionary's insertion
order. -/
def calculate_score (steps : List SimStep) (choices : List SimChoice) :
    Int × List (String × Int) :=
  if choices.isEmpty || choices.length != steps.length then (0, [])
  else
    let totals := choices.foldl (fun acc c => addScores acc c.scores) ⟨0, 0, 0, 0⟩
    let num_steps := choices.length
    let avg := fun (t : Int) => roundHalfEvenInt ((t : ℚ) / (num_steps : ℚ))
    let f := avg totals.frugality
    let s := avg totals.safety
    let t := avg totals.time
    let i := avg totals.initiative
    let overall := roundHalfEvenInt ((f : ℚ) * roundDouble (25/100) +
      (s : ℚ) * roundDouble (3/10) + (t : ℚ) * roundDouble (2/10) +
      (i : ℚ) * roundDouble (25/100))
    (overall, [("frugality", f), ("safety", s), ("time", t), ("initiative", i)])

/-! ### Helper definitions for the claims -/

/-- Ids of the nodes along a returned skill path (an absent lookup, which
the reference catalog never produces, is printed as `"absent"`). -/
def skill_path_ids (path : List (Option SkillNode)) : List String :=
  path.map (fun o => (o.map SkillNode.id).getD "absent")

/-- Modelled from the spec (claim wording): the coverage of a skill as the
count of nodes, other than the skill and not already completed, that are
not available under the completed set alone but become available once the
skill is added.  Compared against `calculate_coverage`. -/
def coverage_newly_available (g : IndieGraph) (skill_id : String)
    (completed : List String) : Nat :=
  if completed.contains skill_id then 0
  else
    (g.nodes.filter (fun n =>
      n.id != skill_id && !(completed.contains n.id) &&
        !(is_available g n.id completed) &&
        is_available g n.id (skill_id :: completed))).length

/-- The coverage of a skill as the count of nodes, other than the skill
and not already completed, that are available once the skill is added to
the completed set — whether or not they were available already.  Compared
against `calculate_coverage`. -/
def coverage_available_after (g : IndieGraph) (skill_id : String)
    (completed : List String) : Nat :=
  if completed.contains skill_id then 0
  else
    (g.nodes.filter (fun n =>
      n.id != skill_id && !(completed.contains n.id) &&
        is_available g n.id (skill_id :: completed))).length

/-- Modelled from the spec (claim wording): the budgeting sub-score as a
single formula — financial health score plus streak bonus minus
overspending penalty, clamped to [0, 100], the streak bonus appearing both
inside the health score and additively.  Compared against
`calculate_budgeting_score` for users with a positive total balance. -/
def budgeting_score_formula (u : UserData) : ℚ :=
  let total := u.spend_balance + u.save_balance + u.share_balance
  let savings_ratio := u.save_balance / total
  let spend_share := u.spend_balance / total
  let streak_bonus := min 20 ((u.streak : ℚ) * 2)
  let financial_health :=
    min 100 (min 100 (savings_ratio * 200) + streak_bonus +
      max 0 (30 - spend_share * 30))
  max 0 (min 100 (financial_health + streak_bonus -
    max 0 ((spend_share - roundDouble (7/10)) * 100)))

/-- A user with no recorded activity and no stored settings row: 0
completed quests, empty ledger, no posts or claims, no simulation runs. -/
def empty_activity_user : UserData := ⟨0, 0, 0, 0, 0, 0, 0, [], none⟩

/-- A user with ledger balances 10/30/10, a 3-day streak and no other
activity; used to witness the budgeting-score formula on a positive
total. -/
def budget_witness_user : UserData := ⟨0, 10, 30, 10, 3, 0, 0, [], none⟩

/-! ### Termination of the skill-path search -/

/-- Every member of a list of naturals is bounded by its `foldr max 0`. -/
theorem le_foldr_max_of_mem {a : Nat} {l : List Nat} (h : a ∈ l) :
    a ≤ l.foldr Nat.max 0 := by
  induction l with
  | nil => cases h
  | cons x xs ih =>
    rcases List.mem_cons.mp h with rfl | h
    · exact Nat.le_max_left _ _
    · exact Nat.le_trans (ih h) (Nat.le_max_right _ _)

/-- No prerequisite list is longer than `max_prereq_len`. -/
theorem get_prerequisites_length_le (g : IndieGraph) (c : String) :
    (get_prerequisites g c).length ≤ max_prereq_len g := by
  unfold get_prerequisites
  cases hfind : get_node_by_id g c with
  | none => exact Nat.zero_le _
  | some n =>
    have hmem : n ∈ g.nodes := List.mem_of_find?_eq_some hfind
    exact le_foldr_max_of_mem
      (List.mem_map_of_mem (fun m => m.prerequisites.length) hmem)

/-- Every prerequisite of any id lies in the id universe of the search. -/
theorem prereq_mem_universe (g : IndieGraph) (target c p : String)
    (h : p ∈ get_prerequisites g c) : p ∈ path_id_universe g target := by
  unfold get_prerequisites at h
  unfold path_id_universe
  cases hfind : get_node_by_id g c with
  | none => rw [hfind] at h; cases h
  | some n =>
    rw [hfind] at h
    have hmem : n ∈ g.nodes := List.mem_of_find?_eq_some hfind
    exact List.mem_cons_of_mem _ (List.mem_flatMap.mpr ⟨n, hmem, h⟩)

/-- Main loop invariant: if every queued id and every visited id lies in a
universe `U` closed under prerequisites, the visited list has no
duplicates, and the fuel exceeds `|queue| + (|U| - |visited|) * (P + 1)`
(with `P` the longest prerequisite list), then the search loop finishes
before the fuel runs out.  Each iteration either shortens the queue
(skipping a visited id), returns, or moves an unvisited id of `U` into
the visited list while pushing at most `P` new entries. -/
theorem get_skill_path_loop_isSome (g : IndieGraph) (completed U : List String)
    (hU : ∀ c p, p ∈ get_prerequisites g c → p ∈ U) :
    ∀ (fuel : Nat) (queue : List PathEntry) (visited : List String),
      (∀ e ∈ queue, e.1 ∈ U) → (∀ v ∈ visited, v ∈ U) → visited.Nodup →
      queue.length + (U.length - visited.length) * (max_prereq_len g + 1) < fuel →
      (get_skill_path_loop g completed fuel queue visited).isSome = true := by
  intro fuel
  induction fuel with
  | zero =>
    intro queue visited _ _ _ hm
    exact absurd hm (Nat.not_lt_zero _)
  | succ fuel ih =>
    intro queue visited hq hv hnd hm
    match queue, hq, hm with
    | [], _, _ => rfl
    | (c, p) :: q, hq, hm =>
      simp only [get_skill_path_loop]
      by_cases hc : visited.contains c
      · rw [if_pos hc]
        apply ih q visited (fun e he => hq e (List.mem_cons_of_mem _ he)) hv hnd
        generalize hslack :
          (U.length - visited.length) * (max_prereq_len g + 1) = slack at hm ⊢
        simp only [List.length_cons] at hm
        omega
      · rw [if_neg hc]
        by_cases hav : is_available g c completed
        · rw [if_pos hav]; rfl
        · rw [if_neg hav]
          have hcU : c ∈ U := hq (c, p) (List.mem_cons_self _ _)
          have hcnotv : c ∉ visited := fun hmem => hc (List.elem_iff.mpr hmem)
          have hnd' : (c :: visited).Nodup := List.nodup_cons.mpr ⟨hcnotv, hnd⟩
          have hv' : ∀ v ∈ c :: visited, v ∈ U := by
            intro v hvm
            rcases List.mem_cons.mp hvm with rfl | hvm
            · exact hcU
            · exact hv v hvm
          have hlt : visited.length < U.length := by
            have h2 := (hnd'.subperm (fun v hvm => hv' v hvm)).length_le
            simp only [List.length_cons] at h2
            omega
          apply ih
          · intro e he
            rcases List.mem_append.mp he with he | he
            · exact hq e (List.mem_cons_of_mem _ he)
            · rcases List.mem_map.mp he with ⟨p', hp', rfl⟩
              exact hU c p' (List.mem_filter.mp hp').1
          · exact hv'
          · exact hnd'
          · have hpush :
                ((get_prerequisites g c).filter (fun x =>
                    !(completed.contains x) && !((c :: visited).contains x))).length ≤
                  max_prereq_len g :=
              Nat.le_trans (List.length_filter_le _ _)
                (get_prerequisites_length_le g c)
            have hkey :
                (U.length - (visited.length + 1)) * (max_prereq_len g + 1) +
                  (max_prereq_len g + 1) =
                (U.length - visited.length) * (max_prereq_len g + 1) := by
              have hb : U.length - visited.length =
                  (U.length - (visited.length + 1)) + 1 := by omega
              rw [hb, Nat.succ_mul]
            simp only [List.length_append, List.length_cons, List.length_map] at hm ⊢
            generalize ha :
              (U.length - (visited.length + 1)) * (max_prereq_len g + 1) = A at hkey ⊢
            generalize hB :
              (U.length - visited.length) * (max_prereq_len g + 1) = B at hkey hm ⊢
            omega

/-! ### Binary64 constant values (shared helper lemmas) -/

/-- The binary64 value of the literal 0.3. -/
theorem roundDouble_three_tenths :
    roundDouble (3/10) = 5404319552844595/18014398509481984 := by
  norm_num [roundDouble, roundDoublePos, floatExp, floatExpAux, roundHalfEvenInt]

/-- The binary64 value of the literal 0.15. -/
theorem roundDouble_fifteen_hundredths :
    roundDouble (15/100) = 5404319552844595/36028797018963968 := by
  norm_num [roundDouble, roundDoublePos, floatExp, floatExpAux, roundHalfEvenInt]

/-- The binary64 value of the literal 0.26. -/
theorem roundDouble_twentysix_hundredths :
    roundDouble (26/100) = 1170935903116329/4503599627370496 := by
  norm_num [roundDouble, roundDoublePos, floatExp, floatExpAux, roundHalfEvenInt]

/-- The binary64 value of the literal 0.01. -/
theorem roundDouble_one_hundredth :
    roundDouble (1/100) = 5764607523034235/576460752303423488 := by
  norm_num [roundDouble, roundDoublePos, floatExp, floatExpAux, roundHalfEvenInt]

/-- The binary64 value of the literal 0.25 (exactly representable). -/
theorem roundDouble_quarter : roundDouble (25/100) = 1/4 := by
  norm_num [roundDouble, roundDoublePos, floatExp, floatExpAux, roundHalfEvenInt]

/-- The binary64 value of 1/4, the normalized form of the literal 0.25. -/
theorem roundDouble_quarter' : roundDouble (1/4) = 1/4 := by
  norm_num [roundDouble, roundDoublePos, floatExp, floatExpAux, roundHalfEvenInt]

/-! ### The claims -/

/-- C1, counterexample: on the reference catalog, `get_next_skills` with an
empty completed set and limit 3 does not return the no-prerequisite nodes
in catalog order.  Four skills are available on the empty set, so the
scored branch runs — not the no-prerequisite fallback — and it orders by
combined score, not catalog order. -/
theorem C1_counterexample :
    (get_next_skills refGraph [] 3).map NextSkill.skillId ≠
      ((refGraph.nodes.filter (fun n => n.prerequisites.isEmpty)).take 3).map
        SkillNode.id := by decide

/-- C1, amended: `get_next_skills` on the empty completed set returns the
top three available nodes by combined score (centrality + coverage) in
descending order: time_management (4 + 5), budget_tracking (3 + 3),
meal_planning (1 + 4); basic_laundry (1 + 3) is cut by the limit. -/
theorem C1_next_skills_empty_completed :
    (get_next_skills refGraph [] 3).map NextSkill.skillId =
      ["time_management", "budget_tracking", "meal_planning"] := by decide

/-- C2, counterexample: an id absent from the catalog is reported
available, not unavailable — its prerequisite list is empty, so the
availability check holds vacuously. -/
theorem C2_counterexample :
    get_node_by_id refGraph "no_such_skill" = none ∧
      is_available refGraph "no_such_skill" [] = true := by decide

/-- C2, amended: for every id absent from the catalog and every completed
set, `is_available` returns true. -/
theorem C2_absent_node_is_available (skill_id : String)
    (completed : List String) (h : get_node_by_id refGraph skill_id = none) :
    is_available refGraph skill_id completed = true := by
  simp [is_available, get_prerequisites, h]

/-- C2, witness: a concrete absent id against a non-empty completed set. -/
theorem C2_witness :
    get_node_by_id refGraph "unknown_skill" = none ∧
      is_available refGraph "unknown_skill" ["meal_planning"] = true :=
  ⟨by decide,
    C2_absent_node_is_available "unknown_skill" ["meal_planning"] (by decide)⟩

/-- C3, counterexample: the coverage of basic_laundry on the empty
completed set is 3 — the source counts every other non-completed node
available after adding the skill, including the three no-prerequisite
nodes that were available already — while the newly-available count the
claim describes is 0. -/
theorem C3_counterexample :
    calculate_coverage refGraph "basic_laundry" [] ≠
      coverage_newly_available refGraph "basic_laundry" [] := by decide

/-- C3, amended: coverage equals the count of catalog nodes other than the
skill and not completed that are available once the skill is added to the
completed set, whether or not they were available before; a completed
skill still yields 0. -/
theorem C3_coverage_available_after (skill_id : String)
    (completed : List String) :
    calculate_coverage refGraph skill_id completed =
      coverage_available_after refGraph skill_id completed := by
  unfold calculate_coverage coverage_available_after
  by_cases h : completed.contains skill_id
  · rw [if_pos h, if_pos h]
  · rw [if_neg h, if_neg h]
    congr 1
    apply List.filter_congr
    intro n _
    cases h1 : completed.contains n.id <;> cases h2 : n.id != skill_id <;>
      simp [h1, h2]

/-- C4: `compute_autonomy_index` is unchanged by any prior sequence of
`update_weights` calls — updates mutate only the engine instance's default
weights, while the index reads its four weights from the stored per-user
settings, so the two operations do not interact. -/
theorem C4_autonomy_index_frame (e : EngineState)
    (updates : List (ℚ × ℚ × ℚ × ℚ)) (u : UserData) :
    compute_autonomy_index (run_weight_updates e updates) u =
      compute_autonomy_index e u := rfl

/-- C5: `update_weights(0.3, 0.3, 0.15, 0.26)` is rejected on any engine
state.  In binary64 arithmetic the sum of the four literals is
4548635623644201/4503599627370496 (just above 1.01), whose deviation from
1.0 — 45035996273705/4503599627370496 — strictly exceeds the binary64
value of the literal 0.01, so the strict tolerance comparison fires. -/
theorem C5_weight_sum_boundary_rejected (e : EngineState) :
    (update_weights e (roundDouble (3/10)) (roundDouble (3/10))
      (roundDouble (15/100)) (roundDouble (26/100))).1 = false := by
  have hval : fsub (fadd (fadd (fadd (roundDouble (3/10)) (roundDouble (3/10)))
      (roundDouble (15/100))) (roundDouble (26/100))) 1 =
      45035996273705/4503599627370496 := by
    norm_num [fadd, fsub, roundDouble_three_tenths,
      roundDouble_fifteen_hundredths, roundDouble_twentysix_hundredths,
      roundDouble, roundDoublePos, floatExp, floatExpAux, roundHalfEvenInt]
  have hcond : roundDouble (1/100) <
      |fsub (fadd (fadd (fadd (roundDouble (3/10)) (roundDouble (3/10)))
        (roundDouble (15/100))) (roundDouble (26/100))) 1| := by
    rw [hval, abs_of_pos (by norm_num), roundDouble_one_hundredth]
    norm_num
  simp only [update_weights]
  rw [if_pos hcond]

/-- C6: whenever the number of choices differs from the number of steps,
`calculate_score` returns overall score 0 and an empty breakdown (no
error path exists in the model: the function is total). -/
theorem C6_mismatched_lengths_zero (steps : List SimStep)
    (choices : List SimChoice) (h : choices.length ≠ steps.length) :
    calculate_score steps choices = (0, []) := by
  simp [calculate_score, h]

/-- C6, witness: one step, no choices. -/
theorem C6_witness :
    ([] : List SimChoice).length ≠ [SimStep.mk "q" []].length ∧
      calculate_score [SimStep.mk "q" []] [] = (0, []) :=
  ⟨by decide, C6_mismatched_lengths_zero _ _ (by decide)⟩

/-- C7: a user with 0 completed quests, 0 transactions (zero balances and
streak), 0 posts or claims, and 0 simulation runs, under the default
stored weights (0.30, 0.30, 0.15, 0.25), scores exactly 12.5: the skills,
budgeting and community sub-scores are 0, judgment defaults to 50, and
50 × 0.25 = 12.5 (0.25 is exact in binary64). -/
theorem C7_empty_user_autonomy_index :
    compute_autonomy_index engine_init empty_activity_user = 25/2 := by
  norm_num [compute_autonomy_index, get_user_settings, default_user_settings,
    empty_activity_user, engine_init, calculate_skills_score,
    calculate_budgeting_score, calculate_community_score,
    calculate_judgment_score, get_financial_health_score, get_budget_overview,
    round1, roundHalfEvenInt, roundDouble_quarter, roundDouble_quarter',
    roundDouble_three_tenths, roundDouble_fifteen_hundredths, min_def,
    max_def, Int.fract]

/-- C8: for every user with a positive total jar balance, the budgeting
sub-score equals financial health score + min(20, streak × 2) −
max(0, (spend share − 0.70) × 100) clamped to [0, 100], with the streak
bonus min(20, streak × 2) counted a second time inside the financial
health score min(100, min(100, savings ratio × 200) + min(20, streak × 2)
+ max(0, 30 − spend ratio × 30)). -/
theorem C8_budgeting_double_streak_formula (u : UserData)
    (h : 0 < u.spend_balance + u.save_balance + u.share_balance) :
    calculate_budgeting_score u = budgeting_score_formula u := by
  simp only [calculate_budgeting_score, budgeting_score_formula,
    get_financial_health_score, get_budget_overview]
  simp only [if_neg h.ne', if_pos h]

/-- C8, witness: balances 10/30/10 (total 50) and a 3-day streak. -/
theorem C8_witness :
    0 < budget_witness_user.spend_balance + budget_witness_user.save_balance +
        budget_witness_user.share_balance ∧
      calculate_budgeting_score budget_witness_user =
        budgeting_score_formula budget_witness_user :=
  ⟨by norm_num [budget_witness_user],
    C8_budgeting_double_streak_formula budget_witness_user
      (by norm_num [budget_witness_user])⟩

/-- C9: `get_skill_path` for first_aid on the empty completed set returns
a non-empty chain that starts at first_aid, passes through
emergency_preparedness, and ends at basic_laundry — a node whose
prerequisites are all satisfied by the empty set and one of
{basic_laundry, budget_tracking}. -/
theorem C9_first_aid_path :
    get_skill_path refGraph "first_aid" [] ≠ [] ∧
      (skill_path_ids (get_skill_path refGraph "first_aid" [])).head? =
        some "first_aid" ∧
      "emergency_preparedness" ∈
        skill_path_ids (get_skill_path refGraph "first_aid" []) ∧
      (skill_path_ids (get_skill_path refGraph "first_aid" [])).getLast? =
        some "basic_laundry" ∧
      is_available refGraph "basic_laundry" [] = true ∧
      "basic_laundry" ∈ ["basic_laundry", "budget_tracking"] := by decide

/-- C10: on every finite catalog — cyclic prerequisite edges included —
and for every target id and completed set, the skill-path search
terminates: the loop, run with the explicit fuel bound `path_fuel` that
`get_skill_path` uses, returns a value rather than exhausting its fuel,
because each iteration either discards a visited queue entry or moves one
more id of the finite id universe into the visited set. -/
theorem C10_skill_path_search_terminates (g : IndieGraph) (target : String)
    (completed : List String) :
    (get_skill_path_loop g completed (path_fuel g target)
      [(target, [])] []).isSome = true := by
  apply get_skill_path_loop_isSome g completed (path_id_universe g target)
    (prereq_mem_universe g target)
  · intro e he
    rcases List.mem_cons.mp he with rfl | he
    · show target ∈ path_id_universe g target
      exact List.mem_cons_self _ _
    · cases he
  · intro v hv
    cases hv
  · exact List.nodup_nil
  · unfold path_fuel
    simp only [List.length_cons, List.length_nil, Nat.sub_zero]
    generalize (path_id_universe g target).length * (max_prereq_len g + 1) = k
    omega

end IndiePilot
